import Mathlib

/-!
Verification of the `ajenti-dev-multitool` packaging descriptor (`setup.py`).

The repository's only source file is a declarative `setup.py` that calls
`distutils.core.setup` with keyword arguments describing the package.  We
embed the argument record, the `setup` call, and the straight-line execution
of the module body, and prove the metadata claims about them.
-/

/-- The record of keyword arguments passed to `distutils.core.setup` in
`setup.py` (the package-metadata record the descriptor constructs). -/
structure Distribution where
  name : String
  version : String
  install_requires : List String
  description : String
  author : String
  author_email : String
  url : String
  scripts : List String
deriving DecidableEq

/-- The `setup` call: it packages its keyword arguments into the
package-metadata record.  It is a total function with no error branch,
mirroring the fact that the descriptor's code contains no conditional or
exception-handling construct. -/
def setup (name version : String) (install_requires : List String)
    (description author author_email url : String)
    (scripts : List String) : Distribution :=
  { name := name
    version := version
    install_requires := install_requires
    description := description
    author := author
    author_email := author_email
    url := url
    scripts := scripts }

/-- The single visible revision of the descriptor: the `setup(...)` call in
`src/setup.py`, with the literal arguments appearing there. -/
def ajentiDevMultitool : Distribution :=
  setup "ajenti-dev-multitool" "1.0.18"
    ["coloredlogs", "pyyaml", "gevent"]
    "-" "Eugene Pankov" "e@ajenti.org" "http://ajenti.org/"
    ["ajenti-dev-multitool"]

/-- Execution of the module body of `setup.py`: a single straight-line call
to `setup`, performed in an error monad to record that Python execution may
in general raise — here it cannot, since the body is one call with literal
arguments. -/
def runSetupPy : Except String Distribution :=
  pure ajentiDevMultitool

/-- Execution of `setup.py` as a function of an ambient environment
(command line, environment variables, file system — modelled abstractly as
key-value pairs): the module body reads none of it, so the result ignores
the argument. -/
def runSetupPyWith (_env : List (String × String)) : Except String Distribution :=
  runSetupPy

/-- The four dependency sets the specification lists across descriptor
revisions (given here as lists, in the spec's order).  Modelled from the
spec's table row for `install_requires`; only one revision is present under
the source. -/
def specInstallRequiresSets : List (List String) :=
  [ ["coloredlogs", "pyyaml"],
    ["coloredlogs", "pyyaml", "gevent"],
    ["pyyaml"],
    ["coloredlogs", "pyyaml", "gevent"] ]

/-- The four version strings the specification observes across descriptor
revisions.  Modelled from the spec's table row for `version`. -/
def specVersions : List String :=
  ["1.0.14", "1.0.18", "0.13", "1.1.8"]

/-- Split a character list at every dot (the components between dots,
with empty components kept). -/
def splitDots : List Char → List (List Char)
  | [] => [[]]
  | c :: cs =>
    if c = '.' then [] :: splitDots cs
    else
      match splitDots cs with
      | [] => [[c]]
      | p :: ps => (c :: p) :: ps

/-- The numeric value of a decimal digit character, if it is one. -/
def digitVal (c : Char) : Option Nat :=
  if '0' ≤ c ∧ c ≤ '9' then some (c.toNat - '0'.toNat) else none

/-- Parse a non-empty all-digit character list as a decimal natural
number. -/
def parseDecimal (cs : List Char) : Option Nat :=
  if cs = [] then none
  else
    cs.foldl
      (fun acc c =>
        match acc, digitVal c with
        | some n, some d => some (n * 10 + d)
        | _, _ => none)
      (some 0)

/-- The version string split at dots and each component parsed as a
decimal natural number. -/
def parsedVersion (d : Distribution) : List (Option Nat) :=
  (splitDots d.version.toList).map parseDecimal

/-- C1: the descriptor's `name` field equals the constant string
`ajenti-dev-multitool` (for the single revision visible in the source). -/
theorem name_is_ajenti_dev_multitool :
    ajentiDevMultitool.name = "ajenti-dev-multitool" := by
  rfl

/-- C2: the descriptor's `scripts` field is a list containing exactly one
entry, the string `ajenti-dev-multitool`. -/
theorem scripts_single_entry :
    ajentiDevMultitool.scripts = ["ajenti-dev-multitool"] := by
  rfl

/-- C3: the visible descriptor's `install_requires` list equals
`coloredlogs, pyyaml, gevent`, and is one of the four dependency sets the
spec lists across revisions. -/
theorem install_requires_matches_spec :
    ajentiDevMultitool.install_requires = ["coloredlogs", "pyyaml", "gevent"] ∧
    ajentiDevMultitool.install_requires ∈ specInstallRequiresSets := by
  refine ⟨rfl, ?_⟩
  simp [ajentiDevMultitool, setup, specInstallRequiresSets]

/-- C4: the descriptor's `version` field is one of the version strings the
spec observes across revisions. -/
theorem version_among_spec_versions :
    ajentiDevMultitool.version ∈ specVersions := by
  simp [ajentiDevMultitool, setup, specVersions]

/-- C5: the descriptive metadata fields of the visible descriptor equal
`Eugene Pankov`, `e@ajenti.org`, `http://ajenti.org/` and `-` (the constant
values the spec reports across revisions). -/
theorem descriptive_metadata_constant :
    ajentiDevMultitool.author = "Eugene Pankov" ∧
    ajentiDevMultitool.author_email = "e@ajenti.org" ∧
    ajentiDevMultitool.url = "http://ajenti.org/" ∧
    ajentiDevMultitool.description = "-" := by
  exact ⟨rfl, rfl, rfl, rfl⟩

/-- C6: evaluating the descriptor never fails: the module body's single
`setup` call returns the metadata record and never an error. -/
theorem runSetupPy_never_fails :
    runSetupPy = Except.ok ajentiDevMultitool := by
  rfl

/-- C7: the descriptor is purely declarative and deterministic: it reads no
input, so any two evaluations — under any two ambient environments —
produce identical metadata records. -/
theorem runSetupPy_deterministic (env₁ env₂ : List (String × String)) :
    runSetupPyWith env₁ = runSetupPyWith env₂ := by
  rfl

/-- C8: the single entry of the visible descriptor's `scripts` list equals
its `name` field. -/
theorem scripts_entry_equals_name :
    ajentiDevMultitool.scripts = [ajentiDevMultitool.name] := by
  rfl

/-- C9: the visible descriptor's `install_requires` list has no duplicate
entries, and every entry is a non-empty string. -/
theorem install_requires_nodup_nonempty :
    ajentiDevMultitool.install_requires.Nodup ∧
    ∀ s ∈ ajentiDevMultitool.install_requires, s ≠ "" := by
  constructor
  · decide
  · decide

/-- C10: the visible descriptor's `version` field is non-empty and parses
as three dot-separated natural numbers, namely 1.0.18. -/
theorem version_parses_as_1_0_18 :
    ajentiDevMultitool.version ≠ "" ∧
    parsedVersion ajentiDevMultitool = [some 1, some 0, some 18] := by
  exact ⟨by decide, by decide⟩
